import Mathlib

/-!
# Verification of the AutoMate backend (gateway + expiration notifier)

Shallow embedding of the three source files of the repository:

* `Gw`      — the current gateway (`index.js` variant with user-id resolution
              and reminder CRUD; the file called `part_000` here).
* `Legacy`  — the older gateway variant (`src/index.js`), whose vehicle and
              device handlers key rows on the external `firebase_uid` directly.
* `Notif`   — the one-shot expiration notifier (`sendNotifications.js`).

Modelling conventions:
* Store rows are Lean structures; a table is a `List` of rows; the whole
  external store (database tables + the `vehicle-docs` object bucket) is one
  `Store` value threaded through handlers.
* Internal primary keys are `Nat` (opaque), assigned from `Store.nextId`.
* Dates are day numbers (days since an arbitrary epoch); where the notifier
  mixes local-midnight and UTC instants we compute in milliseconds with the
  process timezone offset (JS `getTimezoneOffset`, minutes, positive west of
  UTC) as an explicit parameter.
* Supabase `.single()` follows PostgREST: it errors unless exactly one row is
  in the result (0 rows → PGRST116), so `select ... .single()` is modelled as
  `Option` that is `some` only on an exactly-one filter result, and
  `update ... .select().single()` with zero matched rows is an error response.
* JS truthiness on string-or-undefined values (`a || b`) is `jsOr`: the empty
  string is falsy.
* Upsert/update payload keys whose JS value is `undefined` are dropped by
  serialization, so on conflict the prior column value is preserved; keys
  whose value is `null` (e.g. a trailing `|| null`) are present and overwrite.
* External-service failures that a claim quantifies over (object-storage
  write, metadata insert, the notifier range query) are explicit boolean
  oracle parameters of the handler; everything else is the success path.
-/

/-- JS `a || b` on string-or-undefined values: `undefined` and `""` are falsy. -/
def jsOr (a b : Option String) : Option String :=
  match a with
  | some s => if s = "" then b else some s
  | none => b

/-- Decoded identity-provider token claims attached to `req.user`
(`uid`, `email`, `name`). -/
structure Claims where
  uid : String
  email : Option String
  name : Option String
deriving Repr, DecidableEq

/-- Row of the `users` table. -/
structure UserRow where
  id : Nat
  firebase_uid : String
  email : Option String
  display_name : Option String
deriving Repr, DecidableEq

/-- Row of the `vehicles` table.  The two gateway variants key ownership
differently, so the row carries both an optional internal `user_id` (current
gateway) and an optional external `firebase_uid` (legacy gateway, read by the
notifier). -/
structure VehicleRow where
  id : Nat
  user_id : Option Nat
  firebase_uid : Option String
  make : Option String
  model : Option String
  year : Option String
  license_plate : Option String
  nickname : Option String
deriving Repr, DecidableEq

/-- Row of the `documents` table; `expiry_date` is a day number. -/
structure DocumentRow where
  id : Nat
  vehicle_id : Nat
  document_type : Option String
  expiry_date : Int
  storage_path : Option String
  public_url : Option String
deriving Repr, DecidableEq

/-- Row of the `devices` table (push token registry); ownership is keyed the
same two ways as `VehicleRow`. -/
structure DeviceRow where
  id : Nat
  user_id : Option Nat
  firebase_uid : Option String
  token : String
  platform : Option String
deriving Repr, DecidableEq

/-- Row of the `reminders` table. -/
structure ReminderRow where
  id : Nat
  user_id : Nat
  vehicle_id : Option Nat
  title : Option String
  notes : Option String
  due_date : Option Int
  is_completed : Bool
deriving Repr, DecidableEq

/-- The external store: the five tables plus the `vehicle-docs` object bucket
(list of stored object paths) and a fresh-key counter. -/
structure Store where
  users : List UserRow
  vehicles : List VehicleRow
  documents : List DocumentRow
  devices : List DeviceRow
  reminders : List ReminderRow
  storage : List String
  nextId : Nat
deriving Repr, DecidableEq

def emptyStore : Store := ⟨[], [], [], [], [], [], 1⟩

/-- JSON response bodies the handlers produce. -/
inductive RespBody where
  | okUser (u : UserRow)
  | okVehicle (v : VehicleRow)
  | okVehicles (l : List VehicleRow)
  | okDocument (d : DocumentRow)
  | okDocuments (l : List DocumentRow)
  | okDevice (d : DeviceRow)
  | okReminder (r : ReminderRow)
  | okReminders (l : List ReminderRow)
  | okMsg (m : String)
  | errMsg (m : String)
deriving Repr, DecidableEq

/-- An HTTP response: status code plus JSON body. -/
structure Response where
  status : Nat
  body : RespBody
deriving Repr, DecidableEq

/-- `RespBody.errMsg` discriminator. -/
def RespBody.isErr : RespBody → Bool
  | errMsg _ => true
  | _ => false

/-- The `verifyToken` middleware (identical logic in both gateway variants).
`skipAuth` is `SKIP_AUTH === 'true'`, `devUid` is `process.env.DEV_UID`,
`provider` is the external identity provider (`admin.auth().verifyIdToken`),
returning decoded claims or rejecting.  Rejection carries the 401 response the
middleware sends. -/
inductive AuthResult where
  | ok (c : Claims)
  | reject (r : Response)
deriving Repr, DecidableEq

def verifyToken (skipAuth : Bool) (devUid : Option String)
    (provider : String → Option Claims) (authHeader : Option String) : AuthResult :=
  if skipAuth then
    .ok ⟨(jsOr devUid (some "dev-uid")).getD "dev-uid", some "dev@example.com", none⟩
  else
    match authHeader with
    | none => .reject ⟨401, .errMsg "No token"⟩
    | some a =>
      if a = "" ∨ ¬ a.startsWith "Bearer " then .reject ⟨401, .errMsg "No token"⟩
      else
        match provider ((a.splitOn " ").getD 1 "") with
        | some decoded => .ok decoded
        | none => .reject ⟨401, .errMsg "Token invalido"⟩

/-- An Express route `app.method(path, verifyToken, handler)`: the middleware
either sends its 401 (handler never runs, store untouched) or attaches the
claims and runs the handler. -/
def protectedRoute (handler : Claims → Store → Store × Response)
    (skipAuth : Bool) (devUid : Option String)
    (provider : String → Option Claims) (authHeader : Option String)
    (st : Store) : Store × Response :=
  match verifyToken skipAuth devUid provider authHeader with
  | .reject r => (st, r)
  | .ok c => handler c st

/-- PostgREST `.select(...).eq(...).single()`: succeeds only when the filter
result is exactly one row (0 rows or several → error PGRST116). -/
def singleRow {α : Type} (rows : List α) (p : α → Bool) : Option α :=
  match rows.filter p with
  | [r] => some r
  | _ => none

/-- The recurring `users.select('id').eq('firebase_uid', uid).single()` lookup
translating the external identity id to the internal user row. -/
def lookupUser (st : Store) (firebaseUid : String) : Option UserRow :=
  singleRow st.users (fun u => u.firebase_uid == firebaseUid)

/-- Stable insertion step for `orderBy`. -/
def insertOrd {α : Type} (le : α → α → Bool) (x : α) : List α → List α
  | [] => [x]
  | y :: ys => if le x y then x :: y :: ys else y :: insertOrd le x ys

/-- PostgREST `.order(col, ascending: true)` modelled as an insertion sort by
the given comparator. -/
def orderBy {α : Type} (le : α → α → Bool) : List α → List α
  | [] => []
  | x :: xs => insertOrd le x (orderBy le xs)

/-- `POST /api/registerUser` body. -/
structure RegisterUserBody where
  email : Option String
  displayName : Option String
deriving Repr, DecidableEq

/-- `POST /api/vehicles` body (`nickname` only read by the current gateway). -/
structure VehicleBody where
  make : Option String
  model : Option String
  year : Option String
  license_plate : Option String
  nickname : Option String
deriving Repr, DecidableEq

/-- `POST /api/registerDevice` body. -/
structure DeviceBody where
  token : Option String
  platform : Option String
deriving Repr, DecidableEq

/-- Reminder create/update body.  JSON fields absent from the request are
`none` (supabase-js drops `undefined` values from payloads, so an absent field
leaves the column untouched on update; an explicit JSON `null` is collapsed
into `none` as well). -/
structure ReminderBody where
  vehicle_id : Option Nat
  title : Option String
  notes : Option String
  due_date : Option Int
  is_completed : Option Bool
deriving Repr, DecidableEq

/-- `users.upsert({firebase_uid, email, display_name}, onConflict firebase_uid)`:
update the matching row in place, or append a fresh row.  `email` is
`undefined` when both its sources are absent/falsy — the key is then dropped
from the payload, so on conflict the prior email is preserved; `display_name`
ends in `|| null`, so its key is always present and the column is always
written (possibly to null). -/
def upsertUsers (rows : List UserRow) (fresh : Nat) (uid : String)
    (em dn : Option String) : List UserRow :=
  if rows.any (fun r => r.firebase_uid == uid) then
    rows.map (fun r =>
      if r.firebase_uid == uid then
        { r with
          email := match em with | some e => some e | none => r.email,
          display_name := dn }
      else r)
  else rows ++ [⟨fresh, uid, em, dn⟩]

/-- `POST /api/registerUser` (identical in both gateway variants): token
claims win over the request body via JS `||` (the display name chain ends in
`|| null`, so a falsy result is stored as SQL null), then upsert on
`firebase_uid` and return the affected row (`.select().single()`). -/
def registerUser (c : Claims) (body : RegisterUserBody) (st : Store) :
    Store × Response :=
  let em := jsOr c.email body.email
  let dn := jsOr (jsOr c.name body.displayName) none
  let newUsers := upsertUsers st.users st.nextId c.uid em dn
  let st2 : Store := { st with
    users := newUsers,
    nextId := if st.users.any (fun r => r.firebase_uid == c.uid)
      then st.nextId else st.nextId + 1 }
  let resp : Response := match newUsers.filter (fun r => r.firebase_uid == c.uid) with
    | [r] => ⟨200, .okUser r⟩
    | _ => ⟨500, .errMsg "upsert error"⟩
  (st2, resp)

namespace Gw

/-- Current gateway `POST /api/vehicles`: resolve the internal user id first
(404 if missing), then insert the vehicle keyed on `user_id`. -/
def createVehicle (firebaseUid : String) (body : VehicleBody) (st : Store) :
    Store × Response :=
  match lookupUser st firebaseUid with
  | none => (st, ⟨404, .errMsg "Usuario no encontrado en la base de datos."⟩)
  | some user =>
    let row : VehicleRow :=
      ⟨st.nextId, some user.id, none, body.make, body.model, body.year,
        body.license_plate, body.nickname⟩
    ({ st with vehicles := st.vehicles ++ [row], nextId := st.nextId + 1 },
      ⟨200, .okVehicle row⟩)

/-- Current gateway `GET /api/vehicles`: resolve the internal user id (404 if
missing), then return the vehicles with that `user_id`. -/
def getVehicles (firebaseUid : String) (st : Store) : Store × Response :=
  match lookupUser st firebaseUid with
  | none => (st, ⟨404, .errMsg "Usuario no encontrado en la base de datos."⟩)
  | some user =>
    (st, ⟨200, .okVehicles (st.vehicles.filter (fun v => v.user_id == some user.id))⟩)

/-- `GET /api/vehicles/:vehicleId/documents` (same in both variants): filter
documents by the vehicle id from the URL, ordered by expiry ascending.  No
user resolution is performed on this route. -/
def listDocuments (vehicleId : Nat) (st : Store) : Store × Response :=
  (st, ⟨200, .okDocuments
    (orderBy (fun a b => a.expiry_date ≤ b.expiry_date)
      (st.documents.filter (fun d => d.vehicle_id == vehicleId)))⟩)

/-- Uploaded file metadata (`req.file`); the buffer itself is opaque. -/
structure FileInfo where
  originalname : String
deriving Repr, DecidableEq

/-- `getPublicUrl` derives the public URL deterministically from the path. -/
def publicUrlOf (path : String) : String := "public/" ++ path

/-- The derived storage path `uid/vehicleId/timestamp_originalname`. -/
def uploadPath (firebaseUid : String) (vehicleId : Nat) (nowMs : Int)
    (f : FileInfo) : String :=
  firebaseUid ++ "/" ++ toString vehicleId ++ "/" ++
    (toString nowMs ++ "_" ++ f.originalname)

/-- Current gateway `POST /api/vehicles/:vehicleId/documents`.  `nowMs` is
`Date.now()`.  `storageErr` and `insertErr` are oracles for the two external
calls failing; the storage write also fails on its own when the object path
already exists (`upsert: false`). -/
def uploadDocument (firebaseUid : String) (vehicleId : Nat)
    (documentType : Option String) (expiryDate : Int)
    (file : Option FileInfo) (nowMs : Int)
    (storageErr insertErr : Bool) (st : Store) : Store × Response :=
  match file with
  | none => (st, ⟨400, .errMsg "file required"⟩)
  | some f =>
    let path := uploadPath firebaseUid vehicleId nowMs f
    if storageErr ∨ st.storage.contains path then
      (st, ⟨500, .errMsg "storage error"⟩)
    else
      let st1 : Store := { st with storage := st.storage ++ [path] }
      if insertErr then (st1, ⟨500, .errMsg "insert error"⟩)
      else
        let row : DocumentRow :=
          ⟨st1.nextId, vehicleId, documentType, expiryDate, some path,
            some (publicUrlOf path)⟩
        ({ st1 with documents := st1.documents ++ [row], nextId := st1.nextId + 1 },
          ⟨200, .okDocument row⟩)

/-- `devices.upsert({user_id, token, platform}, onConflict token)` of the
current gateway: the matching row gets the new owner, otherwise a fresh row is
appended.  An absent `platform` is `undefined` and its key is dropped from the
payload, so on conflict the prior platform is preserved. -/
def upsertDevices (rows : List DeviceRow) (fresh : Nat) (userId : Nat)
    (tok : String) (pf : Option String) : List DeviceRow :=
  if rows.any (fun r => r.token == tok) then
    rows.map (fun r =>
      if r.token == tok then
        { r with
          user_id := some userId,
          platform := match pf with | some p => some p | none => r.platform }
      else r)
  else rows ++ [⟨fresh, some userId, none, tok, pf⟩]

/-- Current gateway `POST /api/registerDevice` (first route definition,
lines 228–259): 400 on a falsy token, resolve the internal user id (404 if
missing), then upsert the device keyed on token. -/
def registerDevice (firebaseUid : String) (body : DeviceBody) (st : Store) :
    Store × Response :=
  match body.token with
  | none => (st, ⟨400, .errMsg "token required"⟩)
  | some t =>
    if t = "" then (st, ⟨400, .errMsg "token required"⟩)
    else
      match lookupUser st firebaseUid with
      | none => (st, ⟨404, .errMsg "Usuario no encontrado en la base de datos."⟩)
      | some user =>
        let newDevs := upsertDevices st.devices st.nextId user.id t body.platform
        let st2 : Store := { st with
          devices := newDevs,
          nextId := if st.devices.any (fun r => r.token == t)
            then st.nextId else st.nextId + 1 }
        let resp : Response := match newDevs.filter (fun r => r.token == t) with
          | [r] => ⟨200, .okDevice r⟩
          | _ => ⟨500, .errMsg "upsert error"⟩
        (st2, resp)

/-- Current gateway `POST /api/registerDevice` (second, duplicated route
definition, lines 262–293 of the source — byte-identical to the first). -/
def registerDeviceSecond (firebaseUid : String) (body : DeviceBody) (st : Store) :
    Store × Response :=
  match body.token with
  | none => (st, ⟨400, .errMsg "token required"⟩)
  | some t =>
    if t = "" then (st, ⟨400, .errMsg "token required"⟩)
    else
      match lookupUser st firebaseUid with
      | none => (st, ⟨404, .errMsg "Usuario no encontrado en la base de datos."⟩)
      | some user =>
        let newDevs := upsertDevices st.devices st.nextId user.id t body.platform
        let st2 : Store := { st with
          devices := newDevs,
          nextId := if st.devices.any (fun r => r.token == t)
            then st.nextId else st.nextId + 1 }
        let resp : Response := match newDevs.filter (fun r => r.token == t) with
          | [r] => ⟨200, .okDevice r⟩
          | _ => ⟨500, .errMsg "upsert error"⟩
        (st2, resp)

/-- Null-last comparator for reminder due dates. -/
def dueLe (a b : ReminderRow) : Bool :=
  match a.due_date, b.due_date with
  | some x, some y => x ≤ y
  | some _, none => true
  | none, some _ => false
  | none, none => true

/-- Current gateway `GET /api/reminders`: resolve the internal user id (404 if
missing), filter by `user_id`, optionally also by the `vehicleId` query
parameter, ordered by due date ascending. -/
def getReminders (firebaseUid : String) (vehicleId : Option Nat) (st : Store) :
    Store × Response :=
  match lookupUser st firebaseUid with
  | none => (st, ⟨404, .errMsg "Usuario no encontrado en la base de datos."⟩)
  | some user =>
    let base := st.reminders.filter (fun r => r.user_id == user.id)
    let rows := match vehicleId with
      | some vid => base.filter (fun r => r.vehicle_id == some vid)
      | none => base
    (st, ⟨200, .okReminders (orderBy dueLe rows)⟩)

/-- Current gateway `POST /api/reminders`: resolve the internal user id (404
if missing), insert the reminder keyed on `user_id` with
`is_completed ?? false`. -/
def createReminder (firebaseUid : String) (body : ReminderBody) (st : Store) :
    Store × Response :=
  match lookupUser st firebaseUid with
  | none => (st, ⟨404, .errMsg "Usuario no encontrado en la base de datos."⟩)
  | some user =>
    let row : ReminderRow :=
      ⟨st.nextId, user.id, body.vehicle_id, body.title, body.notes,
        body.due_date, (body.is_completed).getD false⟩
    ({ st with reminders := st.reminders ++ [row], nextId := st.nextId + 1 },
      ⟨200, .okReminder row⟩)

/-- The column assignments of the reminder update payload: fields absent from
the body leave the column unchanged (supabase-js drops `undefined`). -/
def applyReminderUpdate (body : ReminderBody) (r : ReminderRow) : ReminderRow :=
  { r with
    vehicle_id := match body.vehicle_id with | some v => some v | none => r.vehicle_id,
    title := match body.title with | some t => some t | none => r.title,
    notes := match body.notes with | some n => some n | none => r.notes,
    due_date := match body.due_date with | some d => some d | none => r.due_date,
    is_completed := (body.is_completed).getD r.is_completed }

/-- Current gateway `PUT /api/reminders/:id`: resolve the internal user id
(404 if missing), update rows matching **both** the record id and `user_id`,
then `.select().single()` — zero matched rows is error PGRST116, caught and
returned as a 500. -/
def updateReminder (firebaseUid : String) (rid : Nat) (body : ReminderBody)
    (st : Store) : Store × Response :=
  match lookupUser st firebaseUid with
  | none => (st, ⟨404, .errMsg "Usuario no encontrado en la base de datos."⟩)
  | some user =>
    let hit := fun (r : ReminderRow) => r.id == rid && r.user_id == user.id
    let newRems := st.reminders.map (fun r =>
      if hit r then applyReminderUpdate body r else r)
    let st2 : Store := { st with reminders := newRems }
    let resp : Response := match st.reminders.filter hit with
      | [r] => ⟨200, .okReminder (applyReminderUpdate body r)⟩
      | _ => ⟨500, .errMsg "PGRST116"⟩
    (st2, resp)

/-- Current gateway `DELETE /api/reminders/:id`: resolve the internal user id
(404 if missing), delete rows matching **both** the record id and `user_id`;
no `.single()`, so a zero-row delete still answers with the success body. -/
def deleteReminder (firebaseUid : String) (rid : Nat) (st : Store) :
    Store × Response :=
  match lookupUser st firebaseUid with
  | none => (st, ⟨404, .errMsg "Usuario no encontrado en la base de datos."⟩)
  | some user =>
    ({ st with reminders :=
        st.reminders.filter (fun r => !(r.id == rid && r.user_id == user.id)) },
      ⟨200, .okMsg "Reminder deleted successfully."⟩)

end Gw

namespace Legacy

/-- Legacy gateway `POST /api/vehicles` (`src/index.js`): **no user lookup** —
the vehicle row is inserted keyed directly on the external `firebase_uid`. -/
def createVehicle (firebaseUid : String) (body : VehicleBody) (st : Store) :
    Store × Response :=
  let row : VehicleRow :=
    ⟨st.nextId, none, some firebaseUid, body.make, body.model, body.year,
      body.license_plate, none⟩
  ({ st with vehicles := st.vehicles ++ [row], nextId := st.nextId + 1 },
    ⟨200, .okVehicle row⟩)

/-- Legacy `devices.upsert({firebase_uid, token, platform}, onConflict token)`;
an absent `platform` key is dropped from the payload, preserving the prior
value on conflict. -/
def upsertDevices (rows : List DeviceRow) (fresh : Nat) (firebaseUid : String)
    (tok : String) (pf : Option String) : List DeviceRow :=
  if rows.any (fun r => r.token == tok) then
    rows.map (fun r =>
      if r.token == tok then
        { r with
          firebase_uid := some firebaseUid,
          platform := match pf with | some p => some p | none => r.platform }
      else r)
  else rows ++ [⟨fresh, none, some firebaseUid, tok, pf⟩]

/-- Legacy gateway `POST /api/registerDevice`: 400 on a falsy token, then a
device upsert keyed on token carrying the external `firebase_uid` directly —
no user lookup. -/
def registerDevice (firebaseUid : String) (body : DeviceBody) (st : Store) :
    Store × Response :=
  match body.token with
  | none => (st, ⟨400, .errMsg "token required"⟩)
  | some t =>
    if t = "" then (st, ⟨400, .errMsg "token required"⟩)
    else
      let newDevs := upsertDevices st.devices st.nextId firebaseUid t body.platform
      let st2 : Store := { st with
        devices := newDevs,
        nextId := if st.devices.any (fun r => r.token == t)
          then st.nextId else st.nextId + 1 }
      let resp : Response := match newDevs.filter (fun r => r.token == t) with
        | [r] => ⟨200, .okDevice r⟩
        | _ => ⟨500, .errMsg "upsert error"⟩
      (st2, resp)

end Legacy

namespace Notif

def msPerDay : Int := 86400000

def msPerMinute : Int := 60000

/-- `getTime()` of `new Date(y, m, d)` — local midnight of day number `day` —
as a UTC instant, with `off` the JS `getTimezoneOffset()` of the process
(minutes, positive west of UTC).  DST transitions are ignored (`off` is held
constant through a run). -/
def localMidnightMs (off day : Int) : Int := day * msPerDay + off * msPerMinute

/-- `toISOString().split('T')[0]` of an instant, as a day number: the UTC
calendar day containing it. -/
def isoDay (ms : Int) : Int := ms.fdiv msPerDay

/-- `Math.ceil(x / msPerDay)` on an integer millisecond difference. -/
def ceilDivDay (x : Int) : Int := -((-x).fdiv msPerDay)

/-- The notifier's `diffDays` for a document: expiry parses as **UTC**
midnight (`new Date('YYYY-MM-DD')`), `startOfToday` is **local** midnight. -/
def diffDays (off today : Int) (d : DocumentRow) : Int :=
  ceilDivDay (d.expiry_date * msPerDay - localMidnightMs off today)

/-- The range query: documents with `expiry_date` between the ISO dates of
`startOfToday` and `startOfToday + 30 days` (date-string comparison on
`YYYY-MM-DD` is day-number comparison). -/
def rangeDocs (st : Store) (off today : Int) : List DocumentRow :=
  let startDay := isoDay (localMidnightMs off today)
  let maxDay := isoDay (localMidnightMs off today + 30 * msPerDay)
  st.documents.filter (fun d => startDay ≤ d.expiry_date ∧ d.expiry_date ≤ maxDay)

/-- `vehicles.select('firebase_uid').eq('id', vehicle_id).single()`. -/
def vehicleOwner (st : Store) (vid : Nat) : Option VehicleRow :=
  singleRow st.vehicles (fun v => v.id == vid)

/-- `devices.select('token').eq('firebase_uid', fuid)` followed by
`.map(x => x.token).filter(Boolean)`; an SQL-null owner matches no row. -/
def tokensFor (st : Store) (fuid : Option String) : List String :=
  match fuid with
  | none => []
  | some u =>
    ((st.devices.filter (fun d => d.firebase_uid == some u)).map
      (fun d => d.token)).filter (fun t => t ≠ "")

/-- One dispatched `sendMulticast` call. -/
structure SendRec where
  docId : Nat
  document_type : Option String
  diffDays : Int
  tokens : List String
deriving Repr, DecidableEq

/-- What the loop body does with one document. -/
inductive DocOutcome where
  | skipped
  | warned
  | sent (s : SendRec)
deriving Repr, DecidableEq

/-- The loop body of `sendNotifications.js`: skip unless `diffDays` is 30, 15
or 7; then resolve the vehicle (warn and continue if missing); then collect
the owner's tokens (skip if none); otherwise dispatch one multi-target send. -/
def processDoc (st : Store) (off today : Int) (d : DocumentRow) : DocOutcome :=
  let diff := diffDays off today d
  if diff = 30 ∨ diff = 15 ∨ diff = 7 then
    match vehicleOwner st d.vehicle_id with
    | none => .warned
    | some v =>
      let tokens := tokensFor st v.firebase_uid
      if tokens = [] then .skipped
      else .sent ⟨d.id, d.document_type, diff, tokens⟩
  else .skipped

/-- One notifier run: a failed range query is fatal (`process.exit(1)`,
modelled as `.error`); otherwise the loop visits every returned document in
order and never breaks out early. -/
def run (qErr : Bool) (st : Store) (off today : Int) :
    Except Unit (List (Nat × DocOutcome)) :=
  if qErr then .error ()
  else .ok ((rangeDocs st off today).map (fun d => (d.id, processDoc st off today d)))

/-- The multi-target sends of a list of outcomes. -/
def sends (outs : List (Nat × DocOutcome)) : List SendRec :=
  outs.filterMap (fun p => match p.2 with | .sent s => some s | _ => none)

/-- The sends produced for one document id. -/
def sendsFor (outs : List (Nat × DocOutcome)) (docId : Nat) : List SendRec :=
  (sends outs).filter (fun s => s.docId == docId)

end Notif

/-! Concrete fixtures used by witnesses and counterexamples. -/

def vbFix : VehicleBody := ⟨some "VW", some "Vento", some "2020", some "ABC-123", none⟩

/-- Two registered users; the only reminder belongs to `bob`. -/
def stC2 : Store := { emptyStore with
  users := [⟨1, "alice", none, none⟩, ⟨2, "bob", none, none⟩],
  reminders := [⟨10, 2, none, some "tire change", none, none, false⟩],
  nextId := 11 }

def rbC2 : ReminderBody := ⟨none, some "hijack", none, none, some true⟩

/-- A vehicle owned (legacy-style) by the external identity `"u-east"`. -/
def vC3 : VehicleRow := ⟨3, none, some "u-east", none, none, none, none, none⟩

/-- A document expiring on day 15 (i.e. `today + 15` for `today = 0`). -/
def dC3 : DocumentRow := ⟨100, 3, some "SOAT", 15, none, none⟩

/-- Notifier fixture: one vehicle, one device token, two documents expiring on
day 15 and day 14. -/
def stC3 : Store := { emptyStore with
  vehicles := [vC3],
  devices := [⟨4, none, some "u-east", "tokE", none⟩],
  documents := [dC3, ⟨101, 3, some "Verificacion", 14, none, none⟩],
  nextId := 200 }

/-- Notifier fixture: the first document's vehicle (id 9) does not exist; the
second document's vehicle resolves and its owner has one token. -/
def stC8 : Store := { emptyStore with
  vehicles := [⟨5, none, some "u-w", none, none, none, none, none⟩],
  devices := [⟨6, none, some "u-w", "tokW", none⟩],
  documents := [⟨200, 9, some "Tarjeta", 7, none, none⟩,
    ⟨201, 5, some "Poliza", 30, none, none⟩],
  nextId := 300 }

/-- A store with one registered user, for exercising the internal-id paths. -/
def stC4 : Store := { emptyStore with
  users := [⟨1, "carol", none, none⟩],
  nextId := 50 }

/-- **C1.** With the development bypass disabled, a request whose
`Authorization` header is absent, not of the form `Bearer <token>`, or whose
token the identity provider rejects, gets a 401 response with a generic error
body, and the store is returned unchanged for every handler — the handler is
never reached. -/
theorem c1_unauthorized_no_mutation
    (handler : Claims → Store → Store × Response)
    (devUid : Option String) (provider : String → Option Claims)
    (authHeader : Option String) (st : Store)
    (hbad : authHeader = none ∨
      ∃ a, authHeader = some a ∧
        (a.startsWith "Bearer " = false ∨
          provider ((a.splitOn " ").getD 1 "") = none)) :
    ∃ r, protectedRoute handler false devUid provider authHeader st = (st, r) ∧
      r.status = 401 ∧ r.body.isErr = true := by
  rcases hbad with h | ⟨a, ha, hcase⟩
  · subst h
    exact ⟨⟨401, .errMsg "No token"⟩, rfl, rfl, rfl⟩
  · subst ha
    rcases hcase with hpre | hprov
    · refine ⟨⟨401, .errMsg "No token"⟩, ?_, rfl, rfl⟩
      simp [protectedRoute, verifyToken, hpre]
    · by_cases hempty : a = ""
      · refine ⟨⟨401, .errMsg "No token"⟩, ?_, rfl, rfl⟩
        simp [protectedRoute, verifyToken, hempty]
      · by_cases hpre : a.startsWith "Bearer "
        · refine ⟨⟨401, .errMsg "Token invalido"⟩, ?_, rfl, rfl⟩
          rw [List.getD_eq_getElem?_getD] at hprov
          simp [protectedRoute, verifyToken, hempty, hpre, hprov]
        · refine ⟨⟨401, .errMsg "No token"⟩, ?_, rfl, rfl⟩
          simp [protectedRoute, verifyToken, hempty, hpre]

/-- Witness for C1: a concrete missing-header request against a handler that
would wipe the users table; the response is 401 and the store survives. -/
theorem c1_unauthorized_no_mutation_witness :
    ∃ r, protectedRoute (fun _ s => ({ s with users := [] }, ⟨200, .okMsg "ok"⟩))
        false none (fun _ => none) none emptyStore = (emptyStore, r) ∧
      r.status = 401 ∧ r.body.isErr = true :=
  c1_unauthorized_no_mutation _ _ _ _ _ (Or.inl rfl)

/-- **C9.** The two `POST /api/registerDevice` route definitions of the
current gateway are functionally identical: on every authenticated identity,
body and store state they perform the same lookup and upsert and produce the
same store and response, so they behave as a single endpoint. -/
theorem c9_duplicate_register_device_routes_identical :
    ∀ (firebaseUid : String) (body : DeviceBody) (st : Store),
      Gw.registerDevice firebaseUid body st =
        Gw.registerDeviceSecond firebaseUid body st := by
  intro firebaseUid body st
  rfl

/-- **C5** (counterexample to the claim as stated): the legacy gateway's
vehicle-creation handler performs no user lookup — on a store with **no**
`users` rows at all it still answers 200 and inserts a vehicle row, keyed on
the external identity id. -/
theorem c5_counterexample_legacy_inserts_without_user :
    emptyStore.users = [] ∧
    (Legacy.createVehicle "ext-1" vbFix emptyStore).2.status = 200 ∧
    (Legacy.createVehicle "ext-1" vbFix emptyStore).1.vehicles =
      [⟨1, none, some "ext-1", some "VW", some "Vento", some "2020",
        some "ABC-123", none⟩] := by
  decide

/-- **C5** (amended): in the current gateway, a vehicle-creation request by an
authenticated identity with no matching internal User row returns 404 and
leaves the store — vehicles and users tables included — unchanged; the User is
not auto-created. -/
theorem c5_unregistered_vehicle_creation_404
    (firebaseUid : String) (body : VehicleBody) (st : Store)
    (hnone : lookupUser st firebaseUid = none) :
    Gw.createVehicle firebaseUid body st =
      (st, ⟨404, .errMsg "Usuario no encontrado en la base de datos."⟩) := by
  simp [Gw.createVehicle, hnone]

/-- Witness for C5: concrete unregistered identity against the empty store. -/
theorem c5_unregistered_vehicle_creation_404_witness :
    Gw.createVehicle "ext-1" vbFix emptyStore =
      (emptyStore, ⟨404, .errMsg "Usuario no encontrado en la base de datos."⟩) :=
  c5_unregistered_vehicle_creation_404 "ext-1" vbFix emptyStore (by decide)

/-- **C2** (counterexample to the claim as stated): `alice` PUTs `bob`'s
reminder.  No row is touched, but because the update requests the affected row
back with `.select().single()`, the 0-row result surfaces as a **500 error**
response, not as a non-error response. -/
theorem c2_counterexample_update_is_error_response :
    (Gw.updateReminder "alice" 10 rbC2 stC2).1 = stC2 ∧
    (Gw.updateReminder "alice" 10 rbC2 stC2).2.status = 500 ∧
    (Gw.updateReminder "alice" 10 rbC2 stC2).2.body.isErr = true := by
  decide

/-- **C2** (amended): update/delete of a reminder owned by a different user
filters on both the record id and the caller's resolved internal user id, so
no row is updated or deleted; the delete handler reports the 0-row result as a
success response, while the update handler surfaces it as a 500 error
(PostgREST PGRST116 from `.single()`). -/
theorem c2_foreign_reminder_zero_rows
    (st : Store) (u : UserRow) (firebaseUid : String) (rid : Nat)
    (body : ReminderBody)
    (hu : lookupUser st firebaseUid = some u)
    (hforeign : ∀ r ∈ st.reminders, r.id = rid → r.user_id ≠ u.id) :
    Gw.updateReminder firebaseUid rid body st = (st, ⟨500, .errMsg "PGRST116"⟩) ∧
    Gw.deleteReminder firebaseUid rid st =
      (st, ⟨200, .okMsg "Reminder deleted successfully."⟩) := by
  have hhit : ∀ r ∈ st.reminders, (r.id == rid && r.user_id == u.id) = false := by
    intro r hr
    by_cases h : r.id = rid
    · have hne := hforeign r hr h
      simp [h, hne]
    · simp [h]
  have hmap : st.reminders.map (fun r =>
      if r.id == rid && r.user_id == u.id then Gw.applyReminderUpdate body r else r) =
      st.reminders := by
    have h1 : st.reminders.map (fun r =>
        if r.id == rid && r.user_id == u.id then Gw.applyReminderUpdate body r else r) =
        st.reminders.map id :=
      List.map_congr_left (fun r hr => by simp [hhit r hr])
    simpa using h1
  have hfil : st.reminders.filter (fun r => r.id == rid && r.user_id == u.id) = [] :=
    List.filter_eq_nil_iff.mpr (fun r hr => by simp [hhit r hr])
  have hkeep : st.reminders.filter (fun r => !(r.id == rid && r.user_id == u.id)) =
      st.reminders :=
    List.filter_eq_self.mpr (fun r hr => by simp [hhit r hr])
  constructor
  · simp only [Gw.updateReminder, hu]
    rw [hmap, hfil]
  · simp only [Gw.deleteReminder, hu]
    rw [hkeep]

/-- Witness for C2: `alice` against `bob`'s concrete reminder. -/
theorem c2_foreign_reminder_zero_rows_witness :
    Gw.updateReminder "alice" 10 rbC2 stC2 = (stC2, ⟨500, .errMsg "PGRST116"⟩) ∧
    Gw.deleteReminder "alice" 10 stC2 =
      (stC2, ⟨200, .okMsg "Reminder deleted successfully."⟩) :=
  c2_foreign_reminder_zero_rows stC2 ⟨1, "alice", none, none⟩ "alice" 10 rbC2
    (by decide) (by decide)

/-- `countP` respects pointwise-equal predicates (helper). -/
theorem countP_congr_mem {α : Type} (l : List α) (p q : α → Bool)
    (h : ∀ a ∈ l, p a = q a) : l.countP p = l.countP q := by
  induction l with
  | nil => rfl
  | cons x xs ih =>
    rw [List.countP_cons, List.countP_cons, h x (by simp),
      ih (fun a ha => h a (by simp [ha]))]

/-- The user upsert leaves exactly one row for the conflict key, provided the
unique constraint held before (at most one row with that `firebase_uid`). -/
theorem upsertUsers_filter_length (rows : List UserRow) (fresh : Nat)
    (uid : String) (em dn : Option String)
    (h : (rows.filter (fun r => r.firebase_uid == uid)).length ≤ 1) :
    ((upsertUsers rows fresh uid em dn).filter
      (fun r => r.firebase_uid == uid)).length = 1 := by
  unfold upsertUsers
  by_cases hany : rows.any (fun r => r.firebase_uid == uid) = true
  · rw [if_pos hany]
    have hcnt : ((rows.map (fun r => if r.firebase_uid == uid
          then { r with
            email := match em with | some e => some e | none => r.email,
            display_name := dn } else r)).filter
          (fun r => r.firebase_uid == uid)).length =
        (rows.filter (fun r => r.firebase_uid == uid)).length := by
      rw [← List.countP_eq_length_filter, ← List.countP_eq_length_filter,
        List.countP_map]
      apply countP_congr_mem
      intro r _
      by_cases hr : r.firebase_uid == uid
      · simp [Function.comp, hr]
      · simp [Function.comp, hr]
    have hpos : 0 < (rows.filter (fun r => r.firebase_uid == uid)).length := by
      rw [← List.countP_eq_length_filter]
      exact List.countP_pos_iff.mpr (List.any_eq_true.mp hany)
    omega
  · rw [if_neg hany]
    have hnil : rows.filter (fun r => r.firebase_uid == uid) = [] := by
      rw [List.filter_eq_nil_iff]
      intro a ha hpa
      exact hany (List.any_eq_true.mpr ⟨a, ha, hpa⟩)
    rw [List.filter_append, hnil]
    simp

/-- When a row for the conflict key already exists, the upsert updates in
place: the table's row count is unchanged. -/
theorem upsertUsers_length_stable (rows : List UserRow) (fresh : Nat)
    (uid : String) (em dn : Option String)
    (hany : rows.any (fun r => r.firebase_uid == uid) = true) :
    (upsertUsers rows fresh uid em dn).length = rows.length := by
  unfold upsertUsers
  rw [if_pos hany]
  exact List.length_map _ _

/-- Every row for the conflict key afterwards carries the just-upserted
display name (always written, possibly null), and the upserted email whenever
the email key was present in the payload. -/
theorem upsertUsers_values (rows : List UserRow) (fresh : Nat) (uid : String)
    (em dn : Option String) :
    ∀ r ∈ upsertUsers rows fresh uid em dn, r.firebase_uid = uid →
      r.display_name = dn ∧ (∀ e, em = some e → r.email = some e) := by
  unfold upsertUsers
  by_cases hany : rows.any (fun r => r.firebase_uid == uid) = true
  · rw [if_pos hany]
    intro r hr huid
    obtain ⟨r0, hr0, hval⟩ := List.mem_map.mp hr
    by_cases h0 : r0.firebase_uid == uid
    · rw [if_pos h0] at hval
      subst hval
      refine ⟨rfl, ?_⟩
      intro e he
      rw [he]
    · rw [if_neg h0] at hval
      subst hval
      exact absurd (beq_iff_eq.mpr huid) h0
  · rw [if_neg hany]
    intro r hr huid
    rcases List.mem_append.mp hr with hin | hnew
    · have hcontra : rows.any (fun r => r.firebase_uid == uid) = true :=
        List.any_eq_true.mpr ⟨r, hin, by simp [huid]⟩
      exact absurd hcontra hany
    · rw [List.mem_singleton] at hnew
      subst hnew
      refine ⟨rfl, ?_⟩
      intro e he
      rw [he]

/-- The state component of `registerUser` is the upsert of the users table
with the `||`-merged email and display name (helper, definitional). -/
theorem registerUser_fst_users (c : Claims) (b : RegisterUserBody) (st : Store) :
    (registerUser c b st).1.users =
      upsertUsers st.users st.nextId c.uid (jsOr c.email b.email)
        (jsOr (jsOr c.name b.displayName) none) := rfl

/-- **C6.** Calling `registerUser` twice for the same external identity (given
the unique-key invariant: at most one pre-existing row for it) leaves exactly
one `users` row for that identity; the second call creates no row — the table
size is unchanged — and instead updates the row in place: the display name is
written from the second call's `claims.name || body.displayName || null`
chain, and the email is written from `claims.email || body.email` whenever
that chain produces a value (an absent email key is dropped from the payload
and leaves the prior email). -/
theorem c6_register_user_idempotent_upsert
    (st : Store) (ca cb : Claims) (ba bb : RegisterUserBody) (uid : String)
    (h1 : ca.uid = uid) (h2 : cb.uid = uid)
    (hcount : (st.users.filter (fun r => r.firebase_uid == uid)).length ≤ 1) :
    (((registerUser cb bb (registerUser ca ba st).1).1.users.filter
      (fun r => r.firebase_uid == uid)).length = 1) ∧
    ((registerUser cb bb (registerUser ca ba st).1).1.users.length =
      (registerUser ca ba st).1.users.length) ∧
    (∀ r ∈ (registerUser cb bb (registerUser ca ba st).1).1.users,
      r.firebase_uid = uid →
        r.display_name = jsOr (jsOr cb.name bb.displayName) none ∧
        (∀ e, jsOr cb.email bb.email = some e → r.email = some e)) := by
  have hu1 : ((registerUser ca ba st).1.users.filter
      (fun r => r.firebase_uid == uid)).length = 1 := by
    rw [registerUser_fst_users, h1]
    exact upsertUsers_filter_length _ _ _ _ _ hcount
  have hany1 : (registerUser ca ba st).1.users.any
      (fun r => r.firebase_uid == uid) = true := by
    rw [List.any_eq_true]
    have hne : (registerUser ca ba st).1.users.filter
        (fun r => r.firebase_uid == uid) ≠ [] := by
      intro hnil
      rw [hnil] at hu1
      simp at hu1
    obtain ⟨r, hr⟩ := List.exists_mem_of_ne_nil _ hne
    obtain ⟨hmem, hp⟩ := List.mem_filter.mp hr
    exact ⟨r, hmem, hp⟩
  refine ⟨?_, ?_, ?_⟩
  · rw [registerUser_fst_users, h2]
    exact upsertUsers_filter_length _ _ _ _ _ hu1.le
  · rw [registerUser_fst_users, h2]
    exact upsertUsers_length_stable _ _ _ _ _ hany1
  · intro r hr huid
    rw [registerUser_fst_users, h2] at hr
    exact upsertUsers_values _ _ _ _ _ r hr huid

/-- Witness for C6: the same external identity `"u1"` registered twice against
the empty store, with different claim/body values each time. -/
theorem c6_register_user_idempotent_upsert_witness :
    (((registerUser ⟨"u1", none, some "Alice"⟩ ⟨some "b@x.com", none⟩
        (registerUser ⟨"u1", some "a@x.com", none⟩ ⟨none, some "Al"⟩
          emptyStore).1).1.users.filter
      (fun r => r.firebase_uid == "u1")).length = 1) ∧
    ((registerUser ⟨"u1", none, some "Alice"⟩ ⟨some "b@x.com", none⟩
        (registerUser ⟨"u1", some "a@x.com", none⟩ ⟨none, some "Al"⟩
          emptyStore).1).1.users.length =
      (registerUser ⟨"u1", some "a@x.com", none⟩ ⟨none, some "Al"⟩
        emptyStore).1.users.length) ∧
    (∀ r ∈ (registerUser ⟨"u1", none, some "Alice"⟩ ⟨some "b@x.com", none⟩
        (registerUser ⟨"u1", some "a@x.com", none⟩ ⟨none, some "Al"⟩
          emptyStore).1).1.users,
      r.firebase_uid = "u1" →
        r.display_name = jsOr (jsOr (some "Alice") none) none ∧
        (∀ e, jsOr none (some "b@x.com") = some e → r.email = some e)) :=
  c6_register_user_idempotent_upsert emptyStore
    ⟨"u1", some "a@x.com", none⟩ ⟨"u1", none, some "Alice"⟩
    ⟨none, some "Al"⟩ ⟨some "b@x.com", none⟩ "u1" rfl rfl (by decide)

/-- **C7.** The upload handler writes the object to storage **before**
inserting the metadata row: a storage-write failure aborts with the store
completely unchanged (no metadata row, no object), a metadata-insert failure
leaves the already-stored object in place with no compensating deletion and no
row, and the success path leaves both the object and the row. -/
theorem c7_upload_storage_first_no_compensation
    (firebaseUid : String) (vehicleId : Nat) (documentType : Option String)
    (expiryDate : Int) (f : Gw.FileInfo) (nowMs : Int) (st : Store)
    (hfree : st.storage.contains (Gw.uploadPath firebaseUid vehicleId nowMs f) = false) :
    (∀ insertErr,
      Gw.uploadDocument firebaseUid vehicleId documentType expiryDate
        (some f) nowMs true insertErr st = (st, ⟨500, .errMsg "storage error"⟩)) ∧
    (Gw.uploadDocument firebaseUid vehicleId documentType expiryDate
        (some f) nowMs false true st =
      ({ st with storage :=
          st.storage ++ [Gw.uploadPath firebaseUid vehicleId nowMs f] },
        ⟨500, .errMsg "insert error"⟩)) ∧
    (Gw.uploadDocument firebaseUid vehicleId documentType expiryDate
        (some f) nowMs false false st =
      ({ st with
          storage := st.storage ++ [Gw.uploadPath firebaseUid vehicleId nowMs f],
          documents := st.documents ++
            [⟨st.nextId, vehicleId, documentType, expiryDate,
              some (Gw.uploadPath firebaseUid vehicleId nowMs f),
              some (Gw.publicUrlOf (Gw.uploadPath firebaseUid vehicleId nowMs f))⟩],
          nextId := st.nextId + 1 },
        ⟨200, .okDocument
          ⟨st.nextId, vehicleId, documentType, expiryDate,
            some (Gw.uploadPath firebaseUid vehicleId nowMs f),
            some (Gw.publicUrlOf (Gw.uploadPath firebaseUid vehicleId nowMs f))⟩⟩)) := by
  have hfree2 : Gw.uploadPath firebaseUid vehicleId nowMs f ∉ st.storage := by
    simpa using hfree
  refine ⟨fun insertErr => ?_, ?_, ?_⟩
  · simp [Gw.uploadDocument]
  · simp [Gw.uploadDocument, hfree2]
  · simp [Gw.uploadDocument, hfree2]

/-- Witness for C7: a concrete upload against the empty store. -/
theorem c7_upload_storage_first_no_compensation_witness :
    (∀ insertErr,
      Gw.uploadDocument "u1" 7 (some "SOAT") 20000 (some ⟨"soat.pdf"⟩) 1700
        true insertErr emptyStore = (emptyStore, ⟨500, .errMsg "storage error"⟩)) ∧
    (Gw.uploadDocument "u1" 7 (some "SOAT") 20000 (some ⟨"soat.pdf"⟩) 1700
        false true emptyStore =
      ({ emptyStore with storage :=
          emptyStore.storage ++ [Gw.uploadPath "u1" 7 1700 ⟨"soat.pdf"⟩] },
        ⟨500, .errMsg "insert error"⟩)) ∧
    (Gw.uploadDocument "u1" 7 (some "SOAT") 20000 (some ⟨"soat.pdf"⟩) 1700
        false false emptyStore =
      ({ emptyStore with
          storage := emptyStore.storage ++ [Gw.uploadPath "u1" 7 1700 ⟨"soat.pdf"⟩],
          documents := emptyStore.documents ++
            [⟨emptyStore.nextId, 7, some "SOAT", 20000,
              some (Gw.uploadPath "u1" 7 1700 ⟨"soat.pdf"⟩),
              some (Gw.publicUrlOf (Gw.uploadPath "u1" 7 1700 ⟨"soat.pdf"⟩))⟩],
          nextId := emptyStore.nextId + 1 },
        ⟨200, .okDocument
          ⟨emptyStore.nextId, 7, some "SOAT", 20000,
            some (Gw.uploadPath "u1" 7 1700 ⟨"soat.pdf"⟩),
            some (Gw.publicUrlOf (Gw.uploadPath "u1" 7 1700 ⟨"soat.pdf"⟩))⟩⟩)) :=
  c7_upload_storage_first_no_compensation "u1" 7 (some "SOAT") 20000
    ⟨"soat.pdf"⟩ 1700 emptyStore (by decide)

/-- **C10** (counterexample to the claim as stated): a token whose email claim
is *present but empty* (`""`) is falsy under JS `||`, so the body's email wins
— the stored row carries the body email even though the token claim exists. -/
theorem c10_counterexample_empty_claim_overridden :
    (registerUser ⟨"u1", some "", some ""⟩
      ⟨some "attacker@example.com", some "Mallory"⟩ emptyStore).1.users =
    [⟨1, "u1", some "attacker@example.com", some "Mallory"⟩] := by
  decide

/-- **C10** (amended): on a fresh identity the stored row's email is
`claims.email || body.email` and its display name is
`claims.name || body.displayName || null`; a **non-empty** token email always
wins over the body and the body's email is used exactly when the token claim
is absent or empty; a non-empty token name always wins, else a non-empty body
display name is stored, else the trailing `|| null` stores SQL null (also when
the body supplies the empty string). -/
theorem c10_token_claims_precedence
    (st : Store) (c : Claims) (b : RegisterUserBody)
    (hfresh : st.users.filter (fun r => r.firebase_uid == c.uid) = []) :
    ((registerUser c b st).1.users = st.users ++
      [⟨st.nextId, c.uid, jsOr c.email b.email,
        jsOr (jsOr c.name b.displayName) none⟩]) ∧
    (∀ e, c.email = some e → e ≠ "" → jsOr c.email b.email = some e) ∧
    ((c.email = none ∨ c.email = some "") → jsOr c.email b.email = b.email) ∧
    (∀ n, c.name = some n → n ≠ "" →
      jsOr (jsOr c.name b.displayName) none = some n) ∧
    ((c.name = none ∨ c.name = some "") →
      (∀ n, b.displayName = some n → n ≠ "" →
        jsOr (jsOr c.name b.displayName) none = some n) ∧
      ((b.displayName = none ∨ b.displayName = some "") →
        jsOr (jsOr c.name b.displayName) none = none)) := by
  have hany : st.users.any (fun r => r.firebase_uid == c.uid) = false := by
    rw [List.any_eq_false]
    intro x hx
    have := List.filter_eq_nil_iff.mp hfresh x hx
    simpa using this
  refine ⟨?_, ?_, ?_, ?_, ?_⟩
  · rw [registerUser_fst_users]
    unfold upsertUsers
    rw [hany]
    simp
  · intro e he hne
    simp [jsOr, he, hne]
  · rintro (h | h) <;> simp [jsOr, h]
  · intro n hn hne
    simp [jsOr, hn, hne]
  · rintro (h | h) <;>
      refine ⟨?_, ?_⟩ <;>
        first
          | (intro n hbn hnne
             simp [jsOr, h, hbn, hnne])
          | (rintro (hb | hb) <;> simp [jsOr, h, hb])

/-- Witness for C10: a fresh identity whose token carries a non-empty email
and no name, with a body attempting to set both. -/
theorem c10_token_claims_precedence_witness :
    ((registerUser ⟨"u1", some "tok@example.com", none⟩
        ⟨some "body@example.com", some "Bea"⟩ emptyStore).1.users =
      emptyStore.users ++
      [⟨emptyStore.nextId, "u1",
        jsOr (some "tok@example.com") (some "body@example.com"),
        jsOr (jsOr none (some "Bea")) none⟩]) ∧
    (∀ e, (some "tok@example.com" : Option String) = some e → e ≠ "" →
      jsOr (some "tok@example.com") (some "body@example.com") = some e) ∧
    (((some "tok@example.com" : Option String) = none ∨
        (some "tok@example.com" : Option String) = some "") →
      jsOr (some "tok@example.com") (some "body@example.com") =
        some "body@example.com") ∧
    (∀ n, (none : Option String) = some n → n ≠ "" →
      jsOr (jsOr none (some "Bea")) none = some n) ∧
    (((none : Option String) = none ∨ (none : Option String) = some "") →
      (∀ n, (some "Bea" : Option String) = some n → n ≠ "" →
        jsOr (jsOr none (some "Bea")) none = some n) ∧
      (((some "Bea" : Option String) = none ∨
          (some "Bea" : Option String) = some "") →
        jsOr (jsOr none (some "Bea")) none = none)) :=
  c10_token_claims_precedence emptyStore ⟨"u1", some "tok@example.com", none⟩
    ⟨some "body@example.com", some "Bea"⟩ (by decide)

/-- `fdiv` by the day length, characterized by bounds (helper). -/
theorem fdiv_msPerDay_eq (a q : Int) (h1 : 86400000 * q ≤ a)
    (h2 : a < 86400000 * (q + 1)) : a.fdiv 86400000 = q := by
  have hmod := Int.fmod_add_fdiv a 86400000
  have hemod : a.fmod 86400000 = a % 86400000 := Int.fmod_eq_emod a (by norm_num)
  have hnn : 0 ≤ a % 86400000 := Int.emod_nonneg a (by norm_num)
  have hlt : a % 86400000 < 86400000 := Int.emod_lt_of_pos a (by norm_num)
  rw [hemod] at hmod
  omega

/-- At or west of UTC (`0 ≤ off < 1440` minutes), the ISO date of local
midnight is the local calendar day itself. -/
theorem isoDay_localMidnight (off today : Int) (h0 : 0 ≤ off) (h1 : off < 1440) :
    Notif.isoDay (Notif.localMidnightMs off today) = today := by
  unfold Notif.isoDay Notif.localMidnightMs Notif.msPerDay Notif.msPerMinute
  apply fdiv_msPerDay_eq
  · omega
  · omega

/-- Same, thirty days later. -/
theorem isoDay_localMidnight_add30 (off today : Int) (h0 : 0 ≤ off)
    (h1 : off < 1440) :
    Notif.isoDay (Notif.localMidnightMs off today + 30 * Notif.msPerDay) =
      today + 30 := by
  unfold Notif.isoDay Notif.localMidnightMs Notif.msPerDay Notif.msPerMinute
  apply fdiv_msPerDay_eq
  · omega
  · omega

/-- At or west of UTC, the notifier's `Math.ceil` day difference is exactly
the calendar-day difference. -/
theorem diffDays_eq_sub (off today : Int) (d : DocumentRow) (h0 : 0 ≤ off)
    (h1 : off < 1440) :
    Notif.diffDays off today d = d.expiry_date - today := by
  unfold Notif.diffDays Notif.ceilDivDay Notif.localMidnightMs
  have harg : -(d.expiry_date * Notif.msPerDay -
      (today * Notif.msPerDay + off * Notif.msPerMinute)) =
      (today - d.expiry_date) * 86400000 + off * 60000 := by
    unfold Notif.msPerDay Notif.msPerMinute
    ring
  rw [harg]
  have h := fdiv_msPerDay_eq ((today - d.expiry_date) * 86400000 + off * 60000)
    (today - d.expiry_date) (by omega) (by omega)
  unfold Notif.msPerDay
  rw [h]
  ring

/-- At or west of UTC, the range query returns exactly the documents whose
expiry lies within `[today, today + 30]`. -/
theorem mem_rangeDocs_iff (st : Store) (off today : Int) (d : DocumentRow)
    (h0 : 0 ≤ off) (h1 : off < 1440) :
    d ∈ Notif.rangeDocs st off today ↔
      d ∈ st.documents ∧ today ≤ d.expiry_date ∧ d.expiry_date ≤ today + 30 := by
  unfold Notif.rangeDocs
  rw [List.mem_filter]
  rw [isoDay_localMidnight off today h0 h1, isoDay_localMidnight_add30 off today h0 h1]
  simp

/-- The send record a document produces always carries that document's id
(helper). -/
theorem processDoc_sent_docId (st : Store) (off today : Int) (x : DocumentRow)
    (s : Notif.SendRec) (h : Notif.processDoc st off today x = .sent s) :
    s.docId = x.id := by
  simp only [Notif.processDoc] at h
  split at h
  · split at h
    · simp at h
    · split at h
      · simp at h
      · injection h with h2
        rw [← h2]
  · simp at h

/-- Documents whose ids all differ from `i` contribute no send for `i`
(helper). -/
theorem sendsFor_eq_nil (L : List DocumentRow) (g : DocumentRow → Notif.DocOutcome)
    (hg : ∀ x s, g x = .sent s → s.docId = x.id) (i : Nat)
    (hi : ∀ x ∈ L, x.id ≠ i) :
    Notif.sendsFor (L.map (fun x => (x.id, g x))) i = [] := by
  induction L with
  | nil => rfl
  | cons x xs ih =>
    have hx : x.id ≠ i := hi x (by simp)
    have ih2 := ih (fun y hy => hi y (by simp [hy]))
    unfold Notif.sendsFor Notif.sends at ih2 ⊢
    rw [List.map_cons, List.filterMap_cons]
    cases hgx : g x with
    | sent s =>
      have hs : s.docId = x.id := hg x s hgx
      rw [List.filter_cons]
      have hsi : (s.docId == i) = false := by
        simp [hs, hx]
      simp only [hsi]
      exact ih2
    | skipped => exact ih2
    | warned => exact ih2

/-- With pairwise-distinct document ids, the sends for a listed document's id
are exactly what its own processing produces (helper). -/
theorem sendsFor_eq_of_mem (L : List DocumentRow)
    (g : DocumentRow → Notif.DocOutcome)
    (hg : ∀ x s, g x = .sent s → s.docId = x.id) (d : DocumentRow)
    (hd : d ∈ L) (hnd : (L.map (fun x => x.id)).Nodup) :
    Notif.sendsFor (L.map (fun x => (x.id, g x))) d.id =
      (match g d with | .sent s => [s] | _ => []) := by
  induction L with
  | nil => cases hd
  | cons x xs ih =>
    rw [List.map_cons, List.nodup_cons] at hnd
    obtain ⟨hxnot, hnd2⟩ := hnd
    rcases List.mem_cons.mp hd with heq | hmem
    · subst heq
      have htail : ∀ y ∈ xs, y.id ≠ d.id := by
        intro y hy hcontra
        exact hxnot (hcontra ▸ List.mem_map.mpr ⟨y, hy, rfl⟩)
      have htl := sendsFor_eq_nil xs g hg d.id htail
      unfold Notif.sendsFor Notif.sends at htl ⊢
      rw [List.map_cons, List.filterMap_cons]
      cases hgx : g d with
      | sent s =>
        have hs : s.docId = d.id := hg d s hgx
        rw [List.filter_cons]
        have hsi : (s.docId == d.id) = true := by simp [hs]
        rw [htl, hsi]
        simp
      | skipped => exact htl
      | warned => exact htl
    · have hxd : x.id ≠ d.id := by
        intro hcontra
        exact hxnot (hcontra ▸ List.mem_map.mpr ⟨d, hmem, rfl⟩)
      have ihr := ih hmem hnd2
      unfold Notif.sendsFor Notif.sends at ihr ⊢
      rw [List.map_cons, List.filterMap_cons]
      cases hgx : g x with
      | sent s =>
        have hs : s.docId = x.id := hg x s hgx
        rw [List.filter_cons]
        have hsi : (s.docId == d.id) = false := by simp [hs, hxd]
        simp only [hsi]
        exact ihr
      | skipped => exact ihr
      | warned => exact ihr

/-- `processDoc` dispatches exactly one multi-target send when the day
difference hits a target and owner and tokens resolve (helper). -/
theorem processDoc_eq_sent (st : Store) (off today : Int) (d : DocumentRow)
    (v : VehicleRow) (u : String)
    (hcond : Notif.diffDays off today d = 30 ∨ Notif.diffDays off today d = 15 ∨
      Notif.diffDays off today d = 7)
    (hv : Notif.vehicleOwner st d.vehicle_id = some v)
    (hu : v.firebase_uid = some u)
    (htok : Notif.tokensFor st (some u) ≠ []) :
    Notif.processDoc st off today d =
      .sent ⟨d.id, d.document_type, Notif.diffDays off today d,
        Notif.tokensFor st (some u)⟩ := by
  simp only [Notif.processDoc, hv, hu]
  rw [if_pos hcond, if_neg htok]

/-- `processDoc` skips a document whose day difference misses every target
(helper). -/
theorem processDoc_eq_skipped (st : Store) (off today : Int) (d : DocumentRow)
    (hcond : ¬(Notif.diffDays off today d = 30 ∨ Notif.diffDays off today d = 15 ∨
      Notif.diffDays off today d = 7)) :
    Notif.processDoc st off today d = .skipped := by
  simp only [Notif.processDoc]
  rw [if_neg hcond]

/-- **C3** (amended): with the process timezone at or west of UTC
(`0 ≤ getTimezoneOffset < 1440`), for every document in the store with
pairwise-distinct ids whose vehicle resolves to an owner with at least one
device token, a run dispatches exactly one multi-target notification carrying
all of the owner's tokens when the expiry is exactly `today+30`, `today+15` or
`today+7`, and dispatches none when the expiry is in range but on no target
day — in particular none for `today+16` and `today+14`. -/
theorem c3_notifier_exact_day_match
    (st : Store) (off today : Int) (d : DocumentRow) (v : VehicleRow) (u : String)
    (h0 : 0 ≤ off) (h1 : off < 1440)
    (hnodup : (st.documents.map (fun x => x.id)).Nodup)
    (hd : d ∈ st.documents)
    (hv : Notif.vehicleOwner st d.vehicle_id = some v)
    (hu : v.firebase_uid = some u)
    (htok : Notif.tokensFor st (some u) ≠ []) :
    ∀ outs, Notif.run false st off today = .ok outs →
      ((d.expiry_date = today + 30 ∨ d.expiry_date = today + 15 ∨
          d.expiry_date = today + 7) →
        Notif.sendsFor outs d.id =
          [⟨d.id, d.document_type, d.expiry_date - today,
            Notif.tokensFor st (some u)⟩]) ∧
      ((0 ≤ d.expiry_date - today ∧ d.expiry_date - today ≤ 30 ∧
          d.expiry_date - today ≠ 30 ∧ d.expiry_date - today ≠ 15 ∧
          d.expiry_date - today ≠ 7) →
        Notif.sendsFor outs d.id = []) ∧
      ((d.expiry_date = today + 16 ∨ d.expiry_date = today + 14) →
        Notif.sendsFor outs d.id = []) := by
  intro outs hrun
  have houts : (Notif.rangeDocs st off today).map
      (fun x => (x.id, Notif.processDoc st off today x)) = outs := by
    simpa [Notif.run] using hrun
  have hg : ∀ x s, Notif.processDoc st off today x = .sent s → s.docId = x.id :=
    fun x s h => processDoc_sent_docId st off today x s h
  have hndr : ((Notif.rangeDocs st off today).map (fun x => x.id)).Nodup :=
    List.Nodup.sublist (List.Sublist.map _ (List.filter_sublist _)) hnodup
  have hdiff : Notif.diffDays off today d = d.expiry_date - today :=
    diffDays_eq_sub off today d h0 h1
  refine ⟨?_, ?_, ?_⟩
  · intro hk
    have hmem : d ∈ Notif.rangeDocs st off today := by
      rw [mem_rangeDocs_iff st off today d h0 h1]
      rcases hk with h | h | h <;> exact ⟨hd, by omega, by omega⟩
    have hsf := sendsFor_eq_of_mem _ _ hg d hmem hndr
    rw [houts] at hsf
    rw [hsf]
    have hcond : Notif.diffDays off today d = 30 ∨
        Notif.diffDays off today d = 15 ∨ Notif.diffDays off today d = 7 := by
      rw [hdiff]
      rcases hk with h | h | h <;> omega
    rw [processDoc_eq_sent st off today d v u hcond hv hu htok]
    rw [hdiff]
  · intro hk
    obtain ⟨hk0, hk30, hn30, hn15, hn7⟩ := hk
    have hmem : d ∈ Notif.rangeDocs st off today := by
      rw [mem_rangeDocs_iff st off today d h0 h1]
      exact ⟨hd, by omega, by omega⟩
    have hsf := sendsFor_eq_of_mem _ _ hg d hmem hndr
    rw [houts] at hsf
    rw [hsf]
    have hcond : ¬(Notif.diffDays off today d = 30 ∨
        Notif.diffDays off today d = 15 ∨ Notif.diffDays off today d = 7) := by
      rw [hdiff]
      omega
    rw [processDoc_eq_skipped st off today d hcond]
  · intro hk
    have hmem : d ∈ Notif.rangeDocs st off today := by
      rw [mem_rangeDocs_iff st off today d h0 h1]
      rcases hk with h | h <;> exact ⟨hd, by omega, by omega⟩
    have hsf := sendsFor_eq_of_mem _ _ hg d hmem hndr
    rw [houts] at hsf
    rw [hsf]
    have hcond : ¬(Notif.diffDays off today d = 30 ∨
        Notif.diffDays off today d = 15 ∨ Notif.diffDays off today d = 7) := by
      rw [hdiff]
      rcases hk with h | h <;> omega
    rw [processDoc_eq_skipped st off today d hcond]

/-- **C3** (counterexample to the claim as stated): in a process timezone east
of UTC (`getTimezoneOffset = -120`, e.g. UTC+2), local midnight precedes the
UTC-parsed expiry date, so `Math.ceil` lands one day high: the document
expiring exactly `today + 15` (id 100) produces **no** notification, while the
document expiring `today + 14` (id 101) produces one. -/
theorem c3_counterexample_east_of_utc :
    Notif.run false stC3 (-120) 0 =
      .ok [(100, Notif.DocOutcome.skipped),
        (101, Notif.DocOutcome.sent ⟨101, some "Verificacion", 15, ["tokE"]⟩)] := by
  rfl

/-- Witness for C3: the same fixture run at UTC (`off = 0`) — the day-15
document dispatches exactly one send carrying all of the owner's tokens. -/
theorem c3_notifier_exact_day_match_witness :
    Notif.sendsFor [(100, Notif.DocOutcome.sent ⟨100, some "SOAT", 15, ["tokE"]⟩),
      (101, Notif.DocOutcome.skipped)] dC3.id =
      [⟨dC3.id, dC3.document_type, dC3.expiry_date - 0,
        Notif.tokensFor stC3 (some "u-east")⟩] :=
  ((c3_notifier_exact_day_match stC3 0 0 dC3 vC3 "u-east" (by decide) (by decide)
    (by decide) (by decide) (by decide) (by decide) (by decide)
    [(100, Notif.DocOutcome.sent ⟨100, some "SOAT", 15, ["tokE"]⟩),
      (101, Notif.DocOutcome.skipped)] (by rfl)).1) (by decide)

/-- **C8.** A document whose vehicle lookup resolves to no row is marked with
a warning and the loop continues: the run still processes every document
before and after it (the run result is the pointwise map over the whole range,
with the bad document contributing `warned`); and a failure of the initial
range query is fatal — the run aborts with no outcome at all. -/
theorem c8_per_document_failure_skips_not_aborts
    (st : Store) (off today : Int) (l1 l2 : List DocumentRow)
    (dbad : DocumentRow)
    (hsplit : Notif.rangeDocs st off today = l1 ++ dbad :: l2)
    (hdiff : Notif.diffDays off today dbad = 30 ∨
      Notif.diffDays off today dbad = 15 ∨ Notif.diffDays off today dbad = 7)
    (hveh : Notif.vehicleOwner st dbad.vehicle_id = none) :
    Notif.run false st off today =
      .ok ((l1.map (fun x => (x.id, Notif.processDoc st off today x))) ++
        (dbad.id, Notif.DocOutcome.warned) ::
        (l2.map (fun x => (x.id, Notif.processDoc st off today x)))) ∧
    (∀ qErr, qErr = true → Notif.run qErr st off today = .error ()) := by
  constructor
  · have hwarn : Notif.processDoc st off today dbad = .warned := by
      simp only [Notif.processDoc, hveh]
      rw [if_pos hdiff]
    simp [Notif.run, hsplit, hwarn]
  · intro qErr h
    subst h
    rfl

/-- Witness for C8: a run over two documents where the first one's vehicle
(id 9) is missing — it is warned and the second is still dispatched. -/
theorem c8_per_document_failure_skips_not_aborts_witness :
    Notif.run false stC8 0 0 =
      .ok ((([] : List DocumentRow).map
          (fun x => (x.id, Notif.processDoc stC8 0 0 x))) ++
        (200, Notif.DocOutcome.warned) ::
        (([⟨201, 5, some "Poliza", 30, none, none⟩] : List DocumentRow).map
          (fun x => (x.id, Notif.processDoc stC8 0 0 x)))) ∧
    (∀ qErr, qErr = true → Notif.run qErr stC8 0 0 = .error ()) :=
  c8_per_document_failure_skips_not_aborts stC8 0 0 []
    [⟨201, 5, some "Poliza", 30, none, none⟩]
    ⟨200, 9, some "Tarjeta", 7, none, none⟩ (by rfl) (by decide) (by decide)

/-- **C4** (counterexample to the claim as stated): Device and Vehicle rows
are also reached through the external identity id directly.  The legacy
gateway's `registerDevice` inserts a device keyed on `firebase_uid` with no
user lookup — it succeeds on a store whose `users` table is empty, where no
internal id exists at all — and the notifier reads the vehicle's owner and the
owner's device tokens by `firebase_uid`, dispatching on a store with no
`users` rows. -/
theorem c4_counterexample_external_id_direct_access :
    (emptyStore.users = []) ∧
    ((Legacy.registerDevice "ext-9" ⟨some "tokZ", some "android"⟩
      emptyStore).2.status = 200) ∧
    ((Legacy.registerDevice "ext-9" ⟨some "tokZ", some "android"⟩
      emptyStore).1.devices = [⟨1, none, some "ext-9", "tokZ", some "android"⟩]) ∧
    (stC3.users = []) ∧
    (Notif.run false stC3 0 0 =
      .ok [(100, Notif.DocOutcome.sent ⟨100, some "SOAT", 15, ["tokE"]⟩),
        (101, Notif.DocOutcome.skipped)]) := by
  refine ⟨rfl, rfl, rfl, rfl, rfl⟩

/-- Insertion preserves membership downwards (helper). -/
theorem mem_insertOrd {α : Type} (le : α → α → Bool) (x a : α) :
    ∀ l : List α, a ∈ insertOrd le x l → a = x ∨ a ∈ l := by
  intro l
  induction l with
  | nil =>
    intro h
    simp only [insertOrd, List.mem_singleton] at h
    exact Or.inl h
  | cons y ys ih =>
    intro h
    simp only [insertOrd] at h
    by_cases hle : le x y = true
    · rw [if_pos hle] at h
      rcases List.mem_cons.mp h with h1 | h2
      · exact Or.inl h1
      · exact Or.inr h2
    · rw [if_neg hle] at h
      rcases List.mem_cons.mp h with h1 | h2
      · exact Or.inr (h1 ▸ List.mem_cons_self y ys)
      · rcases ih h2 with h3 | h4
        · exact Or.inl h3
        · exact Or.inr (List.mem_cons_of_mem y h4)

/-- The sort returns only elements of its input (helper). -/
theorem mem_orderBy {α : Type} (le : α → α → Bool) (a : α) :
    ∀ l : List α, a ∈ orderBy le l → a ∈ l := by
  intro l
  induction l with
  | nil =>
    intro h
    simp only [orderBy] at h
    exact absurd h (List.not_mem_nil a)
  | cons x xs ih =>
    intro h
    simp only [orderBy] at h
    rcases mem_insertOrd le x a _ h with h1 | h2
    · exact h1 ▸ List.mem_cons_self x xs
    · exact List.mem_cons_of_mem x (ih h2)

/-- **C4** (amended): in the current gateway, the vehicle, device and reminder
handlers reach those tables only through the owning User's internal id: each
first translates the external identity id to the internal user id, answers 404
touching nothing when that lookup fails, and — when it succeeds — every
vehicle/reminder row inserted, every vehicle/reminder row returned, every
reminder row mutated or deleted and every device row written is keyed on the
resolved internal id.  (The document endpoints, the legacy gateway variant and
the notifier are excluded: they key on the vehicle id or the external identity
id directly.) -/
theorem c4_internal_id_scoping
    (st : Store) (firebaseUid : String) (vb : VehicleBody) (db : DeviceBody)
    (rb : ReminderBody) (rid : Nat) (vq : Option Nat) :
    (lookupUser st firebaseUid = none →
      Gw.createVehicle firebaseUid vb st =
        (st, ⟨404, .errMsg "Usuario no encontrado en la base de datos."⟩) ∧
      Gw.getVehicles firebaseUid st =
        (st, ⟨404, .errMsg "Usuario no encontrado en la base de datos."⟩) ∧
      Gw.getReminders firebaseUid vq st =
        (st, ⟨404, .errMsg "Usuario no encontrado en la base de datos."⟩) ∧
      Gw.createReminder firebaseUid rb st =
        (st, ⟨404, .errMsg "Usuario no encontrado en la base de datos."⟩) ∧
      Gw.updateReminder firebaseUid rid rb st =
        (st, ⟨404, .errMsg "Usuario no encontrado en la base de datos."⟩) ∧
      Gw.deleteReminder firebaseUid rid st =
        (st, ⟨404, .errMsg "Usuario no encontrado en la base de datos."⟩) ∧
      (∀ t, db.token = some t → t ≠ "" →
        Gw.registerDevice firebaseUid db st =
          (st, ⟨404, .errMsg "Usuario no encontrado en la base de datos."⟩))) ∧
    (∀ u, lookupUser st firebaseUid = some u →
      ((Gw.createVehicle firebaseUid vb st).1.vehicles =
        st.vehicles ++ [⟨st.nextId, some u.id, none, vb.make, vb.model, vb.year,
          vb.license_plate, vb.nickname⟩]) ∧
      ((Gw.getVehicles firebaseUid st).2 =
        ⟨200, .okVehicles (st.vehicles.filter
          (fun v => v.user_id == some u.id))⟩) ∧
      (∀ l, (Gw.getReminders firebaseUid vq st).2 = ⟨200, .okReminders l⟩ →
        ∀ r ∈ l, r.user_id = u.id) ∧
      ((Gw.createReminder firebaseUid rb st).1.reminders =
        st.reminders ++ [⟨st.nextId, u.id, rb.vehicle_id, rb.title, rb.notes,
          rb.due_date, rb.is_completed.getD false⟩]) ∧
      (∀ r ∈ (Gw.updateReminder firebaseUid rid rb st).1.reminders,
        r ∈ st.reminders ∨
          ∃ r0 ∈ st.reminders, r0.id = rid ∧ r0.user_id = u.id ∧
            r = Gw.applyReminderUpdate rb r0) ∧
      (∀ r ∈ st.reminders,
        r ∉ (Gw.deleteReminder firebaseUid rid st).1.reminders →
          r.id = rid ∧ r.user_id = u.id) ∧
      (∀ t, db.token = some t → t ≠ "" →
        ∀ dv ∈ (Gw.registerDevice firebaseUid db st).1.devices,
          dv ∈ st.devices ∨ dv.user_id = some u.id)) := by
  constructor
  · intro hnone
    refine ⟨?_, ?_, ?_, ?_, ?_, ?_, ?_⟩
    · simp [Gw.createVehicle, hnone]
    · simp [Gw.getVehicles, hnone]
    · simp [Gw.getReminders, hnone]
    · simp [Gw.createReminder, hnone]
    · simp [Gw.updateReminder, hnone]
    · simp [Gw.deleteReminder, hnone]
    · intro t ht hti
      simp [Gw.registerDevice, ht, hti, hnone]
  · intro u hu
    refine ⟨?_, ?_, ?_, ?_, ?_, ?_, ?_⟩
    · simp [Gw.createVehicle, hu]
    · simp [Gw.getVehicles, hu]
    · intro l hl r hr
      simp only [Gw.getReminders, hu] at hl
      cases hvq : vq with
      | none =>
        rw [hvq] at hl
        simp only [Response.mk.injEq, RespBody.okReminders.injEq, true_and] at hl
        rw [← hl] at hr
        have hmem := mem_orderBy Gw.dueLe r _ hr
        have := (List.mem_filter.mp hmem).2
        simpa using this
      | some vid =>
        rw [hvq] at hl
        simp only [Response.mk.injEq, RespBody.okReminders.injEq, true_and] at hl
        rw [← hl] at hr
        have hmem := mem_orderBy Gw.dueLe r _ hr
        have hmem2 := (List.mem_filter.mp hmem).1
        have := (List.mem_filter.mp hmem2).2
        simpa using this
    · simp [Gw.createReminder, hu]
    · intro r hr
      simp only [Gw.updateReminder, hu] at hr
      obtain ⟨r0, hr0, hval⟩ := List.mem_map.mp hr
      by_cases hhit : (r0.id == rid && r0.user_id == u.id) = true
      · right
        rw [if_pos hhit] at hval
        have hok : r0.id = rid ∧ r0.user_id = u.id := by simpa using hhit
        exact ⟨r0, hr0, hok.1, hok.2, hval.symm⟩
      · left
        rw [if_neg hhit] at hval
        exact hval ▸ hr0
    · intro r hr hnot
      by_cases h1 : (r.id == rid && r.user_id == u.id) = true
      · simpa using h1
      · exfalso
        apply hnot
        simp only [Gw.deleteReminder, hu]
        apply List.mem_filter.mpr
        refine ⟨hr, ?_⟩
        simp only [Bool.not_eq_true] at h1
        simp [h1]
    · intro t ht hti dv hdv
      simp only [Gw.registerDevice, ht] at hdv
      rw [if_neg hti] at hdv
      simp only [hu] at hdv
      unfold Gw.upsertDevices at hdv
      by_cases hany : (st.devices.any (fun r => r.token == t)) = true
      · rw [if_pos hany] at hdv
        obtain ⟨d0, hd0, hval⟩ := List.mem_map.mp hdv
        by_cases htk : (d0.token == t) = true
        · right
          rw [if_pos htk] at hval
          rw [← hval]
        · left
          rw [if_neg htk] at hval
          exact hval ▸ hd0
      · rw [if_neg hany] at hdv
        rcases List.mem_append.mp hdv with h | h
        · exact Or.inl h
        · right
          rw [List.mem_singleton] at h
          subst h
          rfl

/-- Witness for C4: against a store with the registered user `carol`
(internal id 1), creating a vehicle appends a row keyed on `user_id = 1`. -/
theorem c4_internal_id_scoping_witness :
    (Gw.createVehicle "carol" vbFix stC4).1.vehicles =
      stC4.vehicles ++ [⟨stC4.nextId, some 1, none, vbFix.make, vbFix.model,
        vbFix.year, vbFix.license_plate, vbFix.nickname⟩] :=
  ((c4_internal_id_scoping stC4 "carol" vbFix ⟨some "tk", none⟩ rbC2 10
    none).2 ⟨1, "carol", none, none⟩ (by decide)).1
